import Mathlib

/-
Verification development for the bongs-paragon-paylink webhook relay
(src/index.js). The JavaScript order transformer, request signer and
webhook orchestrator are shallowly embedded below: JS values become the
inductive type JSValue, JS truthiness and the || / && operators become
jsTruthy / jsOr / jsAnd, JSON.stringify becomes jsonStringify, and the
HMAC-SHA256 signing from the crypto module is implemented bit-for-bit
over byte lists (Nat, reduced mod 2^32 where the algorithm does).
Ambient time (Date.now) is passed explicitly as a Nat argument, and the
outbound gateway call and email send of the Express route handler are
abstracted as explicit outcome parameters. Case folding (toLowerCase,
toUpperCase) is modelled on the ASCII range, which is exact for the
non-Unicode-mode regexes and constants the code compares against;
trim strips the full ECMA whitespace set, and number rendering follows
ECMA Number::toString and Number.prototype.toFixed including the
exponential fallback at magnitude 10^21.
-/

/- JS value universe: the shapes a field of the inbound Shopify order can
take. Numbers are modelled as rationals; every IEEE double the service
can receive is an exact rational, and none of the verified behaviour
depends on float rounding. -/
inductive JSValue where
  | undefined : JSValue
  | null : JSValue
  | bool : Bool → JSValue
  | num : Rat → JSValue
  | str : String → JSValue
  | arr : List JSValue → JSValue
  | obj : List (String × JSValue) → JSValue

/- JS truthiness: undefined, null, false, 0 and the empty string are
falsy; every other value (all arrays and objects included) is truthy. -/
def jsTruthy : JSValue → Bool
  | .undefined => false
  | .null => false
  | .bool b => b
  | .num q => if q.num = 0 then false else true
  | .str s => if s = "" then false else true
  | .arr _ => true
  | .obj _ => true

/- JS a || b : a when a is truthy, else b. -/
def jsOr (a b : JSValue) : JSValue := if jsTruthy a then a else b

/- JS a && b : b when a is truthy, else a. -/
def jsAnd (a b : JSValue) : JSValue := if jsTruthy a then b else a

def lookupField : List (String × JSValue) → String → JSValue
  | [], _ => .undefined
  | (k, v) :: rest, key => if k = key then v else lookupField rest key

/- JS property access o.k : undefined on every non-object (the code only
dereferences values it has already guarded to be defined). -/
def jsGetField (v : JSValue) (key : String) : JSValue :=
  match v with
  | .obj fs => lookupField fs key
  | _ => .undefined

/- JS typeof v === "object" (the code pairs it with a truthiness guard,
so the null case never survives the pair). Arrays pass this test. -/
def jsIsObjectType : JSValue → Bool
  | .obj _ => true
  | .arr _ => true
  | .null => true
  | _ => false

/- JS v != null : loose inequality, false exactly on null and undefined. -/
def jsLooseNeqNull : JSValue → Bool
  | .undefined => false
  | .null => false
  | _ => true

/- Character-level embeddings of the string methods the code calls
(toLowerCase, toUpperCase, trim), over the ASCII range. -/
def asciiLower (c : Char) : Char :=
  if 65 ≤ c.toNat ∧ c.toNat ≤ 90 then Char.ofNat (c.toNat + 32) else c

def asciiUpper (c : Char) : Char :=
  if 97 ≤ c.toNat ∧ c.toNat ≤ 122 then Char.ofNat (c.toNat - 32) else c

def strToLower (s : String) : String := String.mk (s.data.map asciiLower)

def strToUpper (s : String) : String := String.mk (s.data.map asciiUpper)

def isWSChar (c : Char) : Bool :=
  let n := c.toNat
  (9 ≤ n && n ≤ 13) || n = 32 || n = 160 || n = 5760 || (8192 ≤ n && n ≤ 8202) ||
  n = 8232 || n = 8233 || n = 8239 || n = 8287 || n = 12288 || n = 65279

/- JS String.prototype.trim: strip the ECMA WhiteSpace and
LineTerminator set from both ends: TAB, LF, VT, FF, CR, SP, NBSP,
OGHAM SPACE MARK, the U+2000..U+200A space separators, LS, PS, NNBSP,
MMSP, IDEOGRAPHIC SPACE and ZWNBSP. -/
def jsTrim (s : String) : String :=
  String.mk (((s.data.dropWhile isWSChar).reverse.dropWhile isWSChar).reverse)

/- Lowercase hex digit for a value below 16. -/
def hexChar (n : Nat) : Char := Char.ofNat (if n < 10 then 48 + n else 87 + n)

def pad2 (m : Nat) : String := if m < 10 then "0" ++ toString m else toString m

/- Smallest k (up to the fuel bound) with d dividing 10 ^ k; every
rational a JS double denotes has a power-of-two denominator, so the
bound is never reached on reachable inputs. -/
def findDecExp (d : Nat) : Nat → Nat → Nat
  | 0, k => k
  | fuel + 1, k => if 10 ^ k % d = 0 then k else findDecExp d fuel (k + 1)

def dropTrailingZeroChars (l : List Char) : List Char :=
  (l.reverse.dropWhile (fun c => c = '0')).reverse

/- Decimal digit characters of a Nat, most significant first; the fuel
argument starts above the value so the base case is never reached. -/
def natDigitsAux : Nat → Nat → List Char
  | 0, _ => []
  | fuel + 1, n =>
      if n < 10 then [Char.ofNat (48 + n)]
      else natDigitsAux fuel (n / 10) ++ [Char.ofNat (48 + n % 10)]

def natDigits (n : Nat) : List Char := natDigitsAux (n + 1) n

/- Body of JS number ToString for a nonzero value, per ECMA-262
Number::toString(10): the value is scaled / 10 ^ k with its exact
decimal digit string; with kD significant digits and decimal exponent
n, the four cases are the plain integer form (kD ≤ n ≤ 21), the point
inside the digits (0 < n ≤ 21), the leading 0. with padding zeros
(-6 < n ≤ 0), and otherwise the exponential form d.dddde±e. -/
def ratBodyString (scaled k : Nat) : String :=
  let digits := natDigits scaled
  let L := digits.length
  let sig := dropTrailingZeroChars digits
  let kD := sig.length
  let n : Int := (L : Int) - k
  if (kD : Int) ≤ n ∧ n ≤ 21 then
    String.mk (natDigits (scaled / 10 ^ k))
  else if 0 < n ∧ n ≤ 21 then
    String.mk (sig.take n.toNat) ++ "." ++ String.mk (sig.drop n.toNat)
  else if -6 < n ∧ n ≤ 0 then
    "0." ++ String.mk (List.replicate (-n).toNat '0') ++ String.mk sig
  else
    (if kD ≤ 1 then String.mk sig
     else String.mk (sig.take 1) ++ "." ++ String.mk (sig.drop 1)) ++
    (if n - 1 < 0 then "e-" else "e+") ++ String.mk (natDigits (n - 1).natAbs)

/- JS ToString on a number (ECMA-262 Number::toString with radix 10):
sign, then the body over the exact decimal digits of the rational.
The digits are the exact expansion rather than the shortest
double-round-trip digits, which agree on every decimal-exact double
the service handles. -/
def ratToString (q : Rat) : String :=
  if q.num = 0 then "0"
  else
    (if q.num < 0 then "-" else "") ++
    ratBodyString (q.num.natAbs * 10 ^ findDecExp q.den 64 0 / q.den)
      (findDecExp q.den 64 0)

/- JS ToString, the coercion applied by regex test, string concatenation
with + and Array.prototype.join. Arrays join their elements with a
comma (null and undefined joining as empty), objects print the generic
object tag. -/
mutual
def jsToString : JSValue → String
  | .undefined => "undefined"
  | .null => "null"
  | .bool b => if b then "true" else "false"
  | .num q => ratToString q
  | .str s => s
  | .arr xs => String.intercalate "," (jsToStringElems xs)
  | .obj _ => "[object Object]"

def jsToStringElems : List JSValue → List String
  | [] => []
  | .undefined :: xs => "" :: jsToStringElems xs
  | .null :: xs => "" :: jsToStringElems xs
  | x :: xs => jsToString x :: jsToStringElems xs
end

/- UTF-8 encoding of one scalar value, as Buffer.from(s, "utf8") does. -/
def utf8EncodeCharNat (c : Char) : List Nat :=
  let n := c.toNat
  if n < 128 then [n]
  else if n < 2048 then [192 + n / 64, 128 + n % 64]
  else if n < 65536 then [224 + n / 4096, 128 + n / 64 % 64, 128 + n % 64]
  else [240 + n / 262144, 128 + n / 4096 % 64, 128 + n / 64 % 64, 128 + n % 64]

def utf8Encode (s : String) : List Nat :=
  (s.data.map utf8EncodeCharNat).flatten

/- SHA-256 over byte lists, word arithmetic carried out on Nat modulo
2 ^ 32, following FIPS 180-4; this is the hash crypto.createHmac
applies. -/
def add32 (a b : Nat) : Nat := (a + b) % 4294967296

def rotr32 (k x : Nat) : Nat := ((x >>> k) ||| (x <<< (32 - k))) % 4294967296

def sha256K : List Nat :=
  [1116352408, 1899447441, 3049323471, 3921009573, 961987163, 1508970993,
   2453635748, 2870763221, 3624381080, 310598401, 607225278, 1426881987,
   1925078388, 2162078206, 2614888103, 3248222580, 3835390401, 4022224774,
   264347078, 604807628, 770255983, 1249150122, 1555081692, 1996064986,
   2554220882, 2821834349, 2952996808, 3210313671, 3336571891, 3584528711,
   113926993, 338241895, 666307205, 773529912, 1294757372, 1396182291,
   1695183700, 1986661051, 2177026350, 2456956037, 2730485921, 2820302411,
   3259730800, 3345764771, 3516065817, 3600352804, 4094571909, 275423344,
   430227734, 506948616, 659060556, 883997877, 958139571, 1322822218,
   1537002063, 1747873779, 1955562222, 2024104815, 2227730452, 2361852424,
   2428436474, 2756734187, 3204031479, 3329325298]

def sha256H0 : List Nat :=
  [1779033703, 3144134277, 1013904242, 2773480762, 1359893119, 2600822924,
   528734635, 1541459225]

def be64 (n : Nat) : List Nat :=
  [(n >>> 56) % 256, (n >>> 48) % 256, (n >>> 40) % 256, (n >>> 32) % 256,
   (n >>> 24) % 256, (n >>> 16) % 256, (n >>> 8) % 256, n % 256]

def sha256Pad (msg : List Nat) : List Nat :=
  let len := msg.length
  let zeros := (56 + 64 - (len + 1) % 64) % 64
  msg ++ [128] ++ List.replicate zeros 0 ++ be64 (len * 8)

def beWords : List Nat → List Nat
  | b0 :: b1 :: b2 :: b3 :: rest =>
      ((b0 <<< 24) ||| (b1 <<< 16) ||| (b2 <<< 8) ||| b3) :: beWords rest
  | _ => []

def chunks64 : Nat → List Nat → List (List Nat)
  | 0, _ => []
  | _ + 1, [] => []
  | fuel + 1, l => l.take 64 :: chunks64 fuel (l.drop 64)

def smallSigma0 (x : Nat) : Nat := (rotr32 7 x) ^^^ (rotr32 18 x) ^^^ (x >>> 3)
def smallSigma1 (x : Nat) : Nat := (rotr32 17 x) ^^^ (rotr32 19 x) ^^^ (x >>> 10)
def bigSigma0 (x : Nat) : Nat := (rotr32 2 x) ^^^ (rotr32 13 x) ^^^ (rotr32 22 x)
def bigSigma1 (x : Nat) : Nat := (rotr32 6 x) ^^^ (rotr32 11 x) ^^^ (rotr32 25 x)

def schedStep (w : List Nat) : List Nat :=
  let i := w.length
  w ++ [add32 (add32 (w.getD (i - 16) 0) (smallSigma0 (w.getD (i - 15) 0)))
              (add32 (w.getD (i - 7) 0) (smallSigma1 (w.getD (i - 2) 0)))]

def fullSchedule (w : List Nat) : List Nat :=
  (List.range 48).foldl (fun acc _ => schedStep acc) w

def compressStep (st : List Nat) (wk : Nat × Nat) : List Nat :=
  let a := st.getD 0 0
  let b := st.getD 1 0
  let c := st.getD 2 0
  let d := st.getD 3 0
  let e := st.getD 4 0
  let f := st.getD 5 0
  let g := st.getD 6 0
  let h := st.getD 7 0
  let ch := (Nat.land e f) ^^^ (Nat.land (e ^^^ 4294967295) g)
  let maj := (Nat.land a b) ^^^ (Nat.land a c) ^^^ (Nat.land b c)
  let t1 := add32 (add32 (add32 h (bigSigma1 e)) (add32 ch wk.2)) wk.1
  let t2 := add32 (bigSigma0 a) maj
  [add32 t1 t2, a, b, c, add32 d t1, e, f, g]

def compressBlock (h : List Nat) (block : List Nat) : List Nat :=
  let w := fullSchedule (beWords block)
  let st := (w.zip sha256K).foldl compressStep h
  (h.zip st).map (fun p => add32 p.1 p.2)

def wordBE (n : Nat) : List Nat :=
  [(n >>> 24) % 256, (n >>> 16) % 256, (n >>> 8) % 256, n % 256]

def sha256Bytes (msg : List Nat) : List Nat :=
  let padded := sha256Pad msg
  let final := (chunks64 padded.length padded).foldl compressBlock sha256H0
  (final.map wordBE).flatten

/- HMAC-SHA256 per RFC 2104 with the 64-byte SHA-256 block size: what
crypto.createHmac("sha256", key) computes. -/
def hmacSha256Bytes (key msg : List Nat) : List Nat :=
  let k0 := if key.length > 64 then sha256Bytes key else key
  let k := k0 ++ List.replicate (64 - k0.length) 0
  let ipadKey := k.map (fun b => b ^^^ 54)
  let opadKey := k.map (fun b => b ^^^ 92)
  sha256Bytes (opadKey ++ sha256Bytes (ipadKey ++ msg))

def byteHex (b : Nat) : List Char := [hexChar (b / 16 % 16), hexChar (b % 16)]

/- Buffer digest("hex"): lowercase hexadecimal rendering. -/
def bytesToHexLower (bs : List Nat) : String :=
  String.mk ((bs.map byteHex).flatten)

/- crypto.createHmac("sha256", secret).update(msg, "utf8").digest("hex") -/
def hmacSha256HexLower (secret msg : String) : String :=
  bytesToHexLower (hmacSha256Bytes (utf8Encode secret) (utf8Encode msg))

/- src/index.js lines 163-166 and 176: the authorization token is the
bearer-formatted HMAC of the serialized body concatenated with the
request URL, keyed by the merchant control secret. -/
def signRequest (bodyString requestUrl secret : String) : String :=
  "Bearer " ++ hmacSha256HexLower secret (bodyString ++ requestUrl)

/- JSON string escaping as JSON.stringify applies to string values. -/
def jsonEscapeChar (c : Char) : List Char :=
  if c = '"' then ['\\', '"']
  else if c = '\\' then ['\\', '\\']
  else if c = Char.ofNat 8 then ['\\', 'b']
  else if c = Char.ofNat 9 then ['\\', 't']
  else if c = Char.ofNat 10 then ['\\', 'n']
  else if c = Char.ofNat 12 then ['\\', 'f']
  else if c = Char.ofNat 13 then ['\\', 'r']
  else if c.toNat < 32 then ['\\', 'u', '0', '0', hexChar (c.toNat / 16), hexChar (c.toNat % 16)]
  else [c]

def jsonQuote (s : String) : String :=
  "\"" ++ String.mk ((s.data.map jsonEscapeChar).flatten) ++ "\""

/- JSON.stringify: undefined serializes to nothing (none), keys mapping
to undefined are dropped from objects, undefined inside an array
serializes as null, and object keys keep insertion order. -/
mutual
def jsonStringify : JSValue → Option String
  | .undefined => none
  | .null => some "null"
  | .bool b => some (if b then "true" else "false")
  | .num q => some (ratToString q)
  | .str s => some (jsonQuote s)
  | .arr xs => some ("[" ++ String.intercalate "," (jsonElems xs) ++ "]")
  | .obj fs => some ("\x7b" ++ String.intercalate "," (jsonMembers fs) ++ "\x7d")

def jsonElems : List JSValue → List String
  | [] => []
  | x :: xs => ((jsonStringify x).getD "null") :: jsonElems xs

def jsonMembers : List (String × JSValue) → List String
  | [] => []
  | (k, v) :: fs =>
      match jsonStringify v with
      | none => jsonMembers fs
      | some sv => (jsonQuote k ++ ":" ++ sv) :: jsonMembers fs
end

/- Static configuration of src/index.js lines 27-33, the environment
variables the transformer reads. -/
structure Config where
  paragonControl : String
  paragonEndpoint : String
  bongsRedirectUrl : String
  bongsWebhookUrl : String

/- The paragonOrder object literal of src/index.js lines 124-147, with
the two fields mutated at lines 154-155 already in final form. Fields
assigned from || chains over order fields keep the JS value (the chain
can resolve to a non-string); fields the code fixes to string constants
or builds by string operations are Lean strings. -/
structure BuyerDetails where
  firstName : JSValue
  lastName : JSValue
  email : JSValue
  address : String
  city : JSValue
  state : String
  zipCode : JSValue
  country : String
  phone : String

structure TechnicalDetails where
  ipaddress : String
  redirectUrl : String
  webhookUrl : String
  payByLink : Bool

structure ParagonOrder where
  clientOrderId : String
  amount : String
  currency : String
  buyerDetails : BuyerDetails
  technicalDetails : TechnicalDetails
  orderDescription : String
  merchantControl : String

/- Key order of JSON.stringify(paragonOrder): insertion order of the
object literal at src/index.js lines 124-147. -/
def ParagonOrder.toJS (po : ParagonOrder) : JSValue :=
  .obj [("clientOrderId", .str po.clientOrderId),
        ("amount", .str po.amount),
        ("currency", .str po.currency),
        ("buyerDetails", .obj
          [("firstName", po.buyerDetails.firstName),
           ("lastName", po.buyerDetails.lastName),
           ("email", po.buyerDetails.email),
           ("address", .str po.buyerDetails.address),
           ("city", po.buyerDetails.city),
           ("state", .str po.buyerDetails.state),
           ("zipCode", po.buyerDetails.zipCode),
           ("country", .str po.buyerDetails.country),
           ("phone", .str po.buyerDetails.phone)]),
        ("technicalDetails", .obj
          [("ipaddress", .str po.technicalDetails.ipaddress),
           ("redirectUrl", .str po.technicalDetails.redirectUrl),
           ("webhookUrl", .str po.technicalDetails.webhookUrl),
           ("payByLink", .bool po.technicalDetails.payByLink)]),
        ("orderDescription", .str po.orderDescription),
        ("merchantControl", .str po.merchantControl)]

def serializeParagonOrder (po : ParagonOrder) : String :=
  (jsonStringify po.toJS).getD ""

/- Return value of buildParagonRequestFromShopify, src/index.js lines
172-187. -/
structure ParsedFields where
  orderNumber : JSValue
  amount : String
  customerName : String
  customerEmail : JSValue
  addressLine : String
  cityLine : JSValue
  postcodeLine : JSValue
  countryCode : String

structure BuiltRequest where
  paragonOrder : ParagonOrder
  bodyString : String
  requestUrl : String
  authHeader : String
  parsed : ParsedFields

/- List-of-characters helpers embedding JS substring search (what
regex.test does for the literal patterns of line 73) and
String.prototype.startsWith. -/
def isPrefixB : List Char → List Char → Bool
  | [], _ => true
  | _ :: _, [] => false
  | a :: as, b :: bs => a = b && isPrefixB as bs

def containsB (pat : List Char) : List Char → Bool
  | [] => isPrefixB pat []
  | c :: rest => isPrefixB pat (c :: rest) || containsB pat rest

def jsStartsWith (s pre : String) : Bool := isPrefixB pre.data s.data

/- Test of /card payments?/i on a string: case-insensitive substring
search; the optional final s never changes whether a match exists. -/
def cardPaymentsRegexTest (s : String) : Bool :=
  containsB ("card payment".data) (strToLower s).data

/- Test of /card/i on a string: case-insensitive substring search. -/
def cardRegexTest (s : String) : Bool :=
  containsB ("card".data) (strToLower s).data

/- src/index.js lines 62-70: payment_gateway_names becomes the array
itself, a one-element list around a single string, or the empty list
for any other shape. -/
def extractGateways (v : JSValue) : List JSValue :=
  match v with
  | .arr xs => xs
  | .str s => [.str s]
  | _ => []

/- src/index.js lines 72-74: the some-callback, with the JS regex test
coercing a non-string gateway entry through ToString. -/
def cardGatewayTest (g : JSValue) : Bool :=
  cardPaymentsRegexTest (jsToString g) || cardRegexTest (jsToString g)

def isCardOrder (order : JSValue) : Bool :=
  (extractGateways (jsGetField order "payment_gateway_names")).any cardGatewayTest

/- src/index.js lines 82-84: order.name, else String(order.order_number)
when order_number is loosely non-null, else the empty string. -/
def resolveOrderNumberRaw (order : JSValue) : JSValue :=
  jsOr (jsGetField order "name")
    (if jsLooseNeqNull (jsGetField order "order_number")
     then .str (jsToString (jsGetField order "order_number"))
     else .str "")

/- src/index.js lines 86-88: the Date.now() fallback, with the current
epoch millis passed in explicitly as now. -/
def resolveOrderNumber (order : JSValue) (now : Nat) : JSValue :=
  if jsTruthy (resolveOrderNumberRaw order)
  then resolveOrderNumberRaw order
  else .str ("no-order-" ++ toString now)

/- src/index.js line 95: order.total_price_set &&
order.total_price_set.shop_money &&
order.total_price_set.shop_money.amount (left-associated). -/
def shopMoneyAmount (order : JSValue) : JSValue :=
  let tps := jsGetField order "total_price_set"
  jsAnd (jsAnd tps (jsGetField tps "shop_money"))
        (jsGetField (jsGetField tps "shop_money") "amount")

/- src/index.js lines 91-96: the truthiness fallback chain ending in
the empty string, left-associated as JS parses a || b || c || d || e. -/
def resolveAmountRaw (order : JSValue) : JSValue :=
  jsOr (jsOr (jsOr (jsOr (jsGetField order "total_price")
                         (jsGetField order "current_total_price"))
                   (jsGetField order "subtotal_price"))
             (shopMoneyAmount order))
       (.str "")

/- Number.prototype.toFixed(2): sign of the argument, then the rounded
value split as integer part, point, and exactly two fraction digits.
Rounding picks the nearest multiple of 1/100, ties upward, as ECMA-262
specifies for toFixed: the scaled value is the floor of
abs(q) * 100 + 1/2, computed here directly on numerator and
denominator as (abs(num) * 200 + den) / (2 * den) in Nat division. -/
def toFixed2Scaled (q : Rat) : Nat := (q.num.natAbs * 200 + q.den) / (2 * q.den)

def toFixed2Whole (q : Rat) : String :=
  (if q.num < 0 then "-" else "") ++ toString (toFixed2Scaled q / 100)

/- ECMA toFixed falls back to ToString once the magnitude reaches
10 ^ 21 (after the sign is stripped, so the comparison is on the
absolute value): (1e21).toFixed(2) is "1e+21", not a two-decimal
string. -/
def toFixed2 (q : Rat) : String :=
  if 10 ^ 21 * q.den ≤ q.num.natAbs then ratToString q
  else toFixed2Whole q ++ "." ++ pad2 (toFixed2Scaled q % 100)

/- src/index.js lines 98-105: numbers go through toFixed(2), strings
with non-blank content are trimmed and kept verbatim, everything else
becomes 0.00. -/
def formatAmount (amountRaw : JSValue) : String :=
  match amountRaw with
  | .num q => toFixed2 q
  | .str s => if jsTrim s = "" then "0.00" else jsTrim s
  | _ => "0.00"

/- src/index.js lines 150-152: prepend the bongs- namespace unless the
identifier already starts with it. -/
def prefixBongs (s : String) : String :=
  if jsStartsWith s "bongs-" then s else "bongs-" ++ s

/- src/index.js lines 81-187, the body of buildParagonRequestFromShopify
past its guards, given the already-resolved order number (the only
place Date.now can enter). The object literal of lines 124-147 plus the
two mutations of lines 154-155 appear here with their final values. -/
def buildCoreNum (order : JSValue) (cfg : Config) (orderNumber : JSValue) : BuiltRequest :=
  let amountRaw := resolveAmountRaw order
  let amount := formatAmount amountRaw
  let shipping := jsOr (jsGetField order "shipping_address")
                    (jsOr (jsGetField order "billing_address") (.obj []))
  let customer := jsOr (jsGetField order "customer") (.obj [])
  let firstName := jsOr (jsGetField shipping "first_name")
                     (jsOr (jsGetField customer "first_name") (.str ""))
  let lastName := jsOr (jsGetField shipping "last_name")
                    (jsOr (jsGetField customer "last_name") (.str ""))
  let customerName :=
    let joined := jsTrim (jsToString firstName ++ " " ++ jsToString lastName)
    if joined = "" then "Customer" else joined
  let addressLine :=
    String.intercalate ", "
      (([jsOr (jsGetField shipping "address1") (.str ""),
         jsOr (jsGetField shipping "address2") (.str "")].filter jsTruthy).map jsToString)
  let cityLine := jsOr (jsGetField shipping "city") (.str "")
  let postcodeLine := jsOr (jsGetField shipping "zip") (.str "")
  let countryCode :=
    strToUpper (jsToString (jsOr (jsGetField shipping "country_code")
                  (jsOr (jsGetField customer "country_code") (.str "GB"))))
  let customerEmail := jsOr (jsGetField order "email")
                         (jsOr (jsGetField customer "email") (.str ""))
  let clientOrderId := prefixBongs (jsTrim (jsToString orderNumber))
  let po : ParagonOrder :=
    { clientOrderId := clientOrderId
      amount := amount
      currency := "GBP"
      buyerDetails :=
        { firstName := jsOr firstName (.str "Customer")
          lastName := jsOr lastName (.str "Customer")
          email := jsOr customerEmail (.str "")
          address := addressLine
          city := cityLine
          state := ""
          zipCode := postcodeLine
          country := countryCode
          phone := "" }
      technicalDetails :=
        { ipaddress := "1.2.3.4"
          redirectUrl := cfg.bongsRedirectUrl
          webhookUrl := cfg.bongsWebhookUrl
          payByLink := true }
      orderDescription := "Bongs order #" ++ clientOrderId
      merchantControl := cfg.paragonControl }
  let requestUrl := "https://channel.paragon.online/v4/" ++ cfg.paragonEndpoint ++ "/form/sale"
  let bodyString := serializeParagonOrder po
  let authHeader := signRequest bodyString requestUrl cfg.paragonControl
  { paragonOrder := po
    bodyString := bodyString
    requestUrl := requestUrl
    authHeader := authHeader
    parsed :=
      { orderNumber := orderNumber
        amount := amount
        customerName := customerName
        customerEmail := customerEmail
        addressLine := addressLine
        cityLine := cityLine
        postcodeLine := postcodeLine
        countryCode := countryCode } }

def buildCore (order : JSValue) (cfg : Config) (now : Nat) : BuiltRequest :=
  buildCoreNum order cfg (resolveOrderNumber order now)

/- src/index.js lines 51-188. The three early returns: a falsy or
non-object payload, an empty PARAGON_CONTROL, and a gateway list with
no card match. The try block of lines 161-170 cannot fail in this
model: JSON.stringify of paragonOrder and the HMAC are total, so its
catch branch is unreachable and the build past the guards always
returns a value. -/
def buildParagonRequestFromShopify (order : JSValue) (cfg : Config) (now : Nat) :
    Option BuiltRequest :=
  if jsTruthy order && jsIsObjectType order then
    if cfg.paragonControl = "" then none
    else if isCardOrder order then some (buildCore order cfg now)
    else none
  else none

/- Outcome of the outbound axios.post to the gateway: the response data
on a 2xx, or the error message of a timeout, non-2xx or network error. -/
inductive GatewayResult where
  | success (data : JSValue) : GatewayResult
  | failure (message : String) : GatewayResult

/- Outcome of transporter.sendMail. -/
inductive EmailResult where
  | sent : EmailResult
  | failed (message : String) : EmailResult

/- Observable outcome of one POST /shopify-order call: the HTTP reply,
whether the gateway was called, the exact JSON text transmitted to it,
and whether an email send was attempted. -/
structure HandlerOutcome where
  status : Nat
  body : JSValue
  gatewayCalled : Bool
  transmittedBody : Option String
  emailAttempted : Bool

/- src/index.js lines 204-311, the POST /shopify-order route. The
gateway and email collaborators enter as explicit outcomes. The
transmitted body is what axios.post serializes from the paragonOrder
object itself (axios applies JSON.stringify to its data argument;
line 231-233), independently of the bodyString the signer consumed. -/
def handleShopifyOrder (reqBody : JSValue) (cfg : Config) (now : Nat)
    (gw : GatewayResult) (em : EmailResult) : HandlerOutcome :=
  let order := jsOr reqBody (.obj [])
  match buildParagonRequestFromShopify order cfg now with
  | none =>
      { status := 200
        body := .obj [("ok", .bool true), ("skipped", .str "not-card-or-bad-payload")]
        gatewayCalled := false
        transmittedBody := none
        emailAttempted := false }
  | some built =>
      let transmitted := serializeParagonOrder built.paragonOrder
      match gw with
      | .failure msg =>
          { status := 200
            body := .obj [("ok", .bool false), ("error", .str "paragon-failed"),
                          ("message", .str msg)]
            gatewayCalled := true
            transmittedBody := some transmitted
            emailAttempted := false }
      | .success data =>
          let pData := jsOr data (.obj [])
          let paymentLink := jsOr (jsGetField pData "redirectUrl") (.str "")
          if jsTruthy built.parsed.customerEmail && jsTruthy paymentLink then
            match em with
            | .failed msg =>
                { status := 200
                  body := .obj [("ok", .bool false), ("error", .str "email-failed"),
                                ("message", .str msg), ("paymentLink", paymentLink)]
                  gatewayCalled := true
                  transmittedBody := some transmitted
                  emailAttempted := true }
            | .sent =>
                { status := 200
                  body := .obj [("ok", .bool true), ("paymentLink", paymentLink),
                                ("clientOrderId", .str built.paragonOrder.clientOrderId)]
                  gatewayCalled := true
                  transmittedBody := some transmitted
                  emailAttempted := true }
          else
            { status := 200
              body := .obj [("ok", .bool true), ("paymentLink", paymentLink),
                            ("clientOrderId", .str built.paragonOrder.clientOrderId)]
              gatewayCalled := true
              transmittedBody := some transmitted
              emailAttempted := false }

/- Rational literals in explicit lowest-terms constructor form, so that
their numerator and denominator are literal fields. -/
def ratInt (n : Int) : Rat := ⟨n, 1, one_ne_zero, Nat.coprime_one_right _⟩

def rat25over2 : Rat := ⟨25, 2, by decide, by decide⟩

/- Concrete inputs used to instantiate the theorems below. -/
def cfgEx : Config where
  paragonControl := "secret"
  paragonEndpoint := "7592"
  bongsRedirectUrl := "https://bongs.co.uk/payment-complete"
  bongsWebhookUrl := "https://webhook.site/your-id"

def cfgEmpty : Config where
  paragonControl := ""
  paragonEndpoint := "7592"
  bongsRedirectUrl := "https://bongs.co.uk/payment-complete"
  bongsWebhookUrl := "https://webhook.site/your-id"

def oA : JSValue := .obj [
  ("payment_gateway_names", .arr [.str "Card Payments"]),
  ("name", .str "#1001"),
  ("total_price", .str "45.00"),
  ("email", .str "jane@example.com"),
  ("shipping_address", .obj [("first_name", .str "Jane"), ("last_name", .str "Doe"),
    ("address1", .str "1 Rue"), ("city", .str "Paris"), ("zip", .str "75001"),
    ("country_code", .str "fr")])]

def oPayPal : JSValue := .obj [("payment_gateway_names", .arr [.str "PayPal"])]

/- A card order with neither name nor order_number: the build must fall
back to the Date.now synthesized identifier. -/
def oStrCard : JSValue := .obj [("payment_gateway_names", .str "card")]

def oZeroTotal : JSValue := .obj [
  ("payment_gateway_names", .arr [.str "card"]),
  ("total_price", .num (ratInt 0)),
  ("subtotal_price", .str "5.00")]

def oAllEmptyAmount : JSValue := .obj [
  ("payment_gateway_names", .arr [.str "card"]),
  ("total_price", .num (ratInt 0)),
  ("current_total_price", .str ""),
  ("subtotal_price", .num (ratInt 0))]

theorem isPrefixB_trans (p : List Char) : ∀ q l, isPrefixB p q = true →
    isPrefixB q l = true → isPrefixB p l = true := by
  induction p with
  | nil => intro q l _ _; rfl
  | cons a as ih =>
      intro q l hpq hql
      cases q with
      | nil => simp [isPrefixB] at hpq
      | cons b bs =>
          cases l with
          | nil => simp [isPrefixB] at hql
          | cons c cs =>
              simp only [isPrefixB, Bool.and_eq_true, decide_eq_true_eq] at hpq hql ⊢
              exact ⟨hpq.1.trans hql.1, ih bs cs hpq.2 hql.2⟩

theorem containsB_mono (p q : List Char) (hpq : isPrefixB p q = true) :
    ∀ l, containsB q l = true → containsB p l = true := by
  intro l
  induction l with
  | nil =>
      intro h
      exact isPrefixB_trans p q [] hpq h
  | cons c cs ih =>
      intro h
      simp only [containsB, Bool.or_eq_true] at h ⊢
      rcases h with h | h
      · exact Or.inl (isPrefixB_trans p q (c :: cs) hpq h)
      · exact Or.inr (ih h)

theorem isPrefixB_append_self (p : List Char) : ∀ rest, isPrefixB p (p ++ rest) = true := by
  induction p with
  | nil => intro rest; rfl
  | cons a as ih =>
      intro rest
      simp [isPrefixB, ih rest]

theorem jsStartsWith_prepend (p s : String) : jsStartsWith (p ++ s) p = true := by
  unfold jsStartsWith
  rw [String.data_append]
  exact isPrefixB_append_self p.data s.data

theorem prefixBongs_startsWith (s : String) :
    jsStartsWith (prefixBongs s) "bongs-" = true := by
  unfold prefixBongs
  by_cases h : jsStartsWith s "bongs-" = true
  · rw [if_pos h]; exact h
  · rw [if_neg h]; exact jsStartsWith_prepend "bongs-" s

theorem prefixBongs_idem (s : String) : prefixBongs (prefixBongs s) = prefixBongs s := by
  unfold prefixBongs
  by_cases h : jsStartsWith s "bongs-" = true
  · rw [if_pos h, if_pos h]
  · rw [if_neg h, if_pos (jsStartsWith_prepend "bongs-" s)]

theorem isCardOrder_shape (o : JSValue) (h : isCardOrder o = true) :
    jsTruthy o = true ∧ jsIsObjectType o = true := by
  cases o <;>
    simp [isCardOrder, jsGetField, extractGateways, jsTruthy, jsIsObjectType] at h ⊢

theorem build_eq_some (o : JSValue) (cfg : Config) (now : Nat)
    (h1 : jsTruthy o = true) (h2 : jsIsObjectType o = true)
    (h3 : cfg.paragonControl ≠ "") (h4 : isCardOrder o = true) :
    buildParagonRequestFromShopify o cfg now = some (buildCore o cfg now) := by
  unfold buildParagonRequestFromShopify
  rw [h1, h2]
  simp [h3, h4]

/-- Claim C3: for every order none of whose gateway names matches the
card pattern (case-insensitive card, optionally followed by
payment/payments), the transformer returns null; and the gateway-name
list is taken as the given array, a single string wrapped into a
one-element list, or the empty list for any other shape. The last
conjunct shows the combined regex pair of the source is exactly the
case-insensitive substring test for card. -/
theorem nonCardOrders_return_null :
    (∀ o cfg now, isCardOrder o = false → buildParagonRequestFromShopify o cfg now = none)
    ∧ (∀ xs, extractGateways (.arr xs) = xs)
    ∧ (∀ s, extractGateways (.str s) = [.str s])
    ∧ extractGateways .undefined = []
    ∧ extractGateways .null = []
    ∧ (∀ b, extractGateways (.bool b) = [])
    ∧ (∀ q, extractGateways (.num q) = [])
    ∧ (∀ fs, extractGateways (.obj fs) = [])
    ∧ (∀ g, cardGatewayTest g = cardRegexTest (jsToString g)) := by
  refine ⟨?_, fun xs => rfl, fun s => rfl, rfl, rfl, fun b => rfl, fun q => rfl,
    fun fs => rfl, ?_⟩
  · intro o cfg now h
    unfold buildParagonRequestFromShopify
    simp [h]
  · intro g
    unfold cardGatewayTest
    cases h2 : cardPaymentsRegexTest (jsToString g)
    · simp
    · have hc : cardRegexTest (jsToString g) = true := by
        unfold cardRegexTest
        unfold cardPaymentsRegexTest at h2
        exact containsB_mono ("card".data) ("card payment".data) (by decide) _ h2
      rw [hc]
      simp

theorem nonCardOrders_return_null_witness :
    buildParagonRequestFromShopify oPayPal cfgEx 0 = none :=
  nonCardOrders_return_null.1 oPayPal cfgEx 0 (by decide)

/-- Claim C4: for every order with a gateway name matching the card
pattern and a non-empty configured secret, the build returns a non-null
request whose clientOrderId starts with the bongs- namespace, the
identifier is the prefixing step applied to the trimmed stringified
order number, and that prefixing step is idempotent (an already
prefixed identifier is returned unchanged, never double-prefixed). -/
theorem clientOrderId_bongs_namespace (o : JSValue) (cfg : Config) (now : Nat)
    (hCard : isCardOrder o = true) (hCtl : cfg.paragonControl ≠ "") :
    buildParagonRequestFromShopify o cfg now = some (buildCore o cfg now)
    ∧ jsStartsWith (buildCore o cfg now).paragonOrder.clientOrderId "bongs-" = true
    ∧ (buildCore o cfg now).paragonOrder.clientOrderId
        = prefixBongs (jsTrim (jsToString (resolveOrderNumber o now)))
    ∧ (∀ s, prefixBongs (prefixBongs s) = prefixBongs s) := by
  obtain ⟨h1, h2⟩ := isCardOrder_shape o hCard
  exact ⟨build_eq_some o cfg now h1 h2 hCtl hCard,
    prefixBongs_startsWith (jsTrim (jsToString (resolveOrderNumber o now))),
    rfl, prefixBongs_idem⟩

theorem clientOrderId_bongs_namespace_witness :
    buildParagonRequestFromShopify oA cfgEx 0 = some (buildCore oA cfgEx 0)
    ∧ jsStartsWith (buildCore oA cfgEx 0).paragonOrder.clientOrderId "bongs-" = true :=
  ⟨(clientOrderId_bongs_namespace oA cfgEx 0 (by decide) (by decide)).1,
   (clientOrderId_bongs_namespace oA cfgEx 0 (by decide) (by decide)).2.1⟩

/-- Claim C7: with an absent or empty merchantControl secret the build
returns null for every order, and conversely every non-null build
result carries a non-empty merchantControl field. -/
theorem merchantControl_required :
    (∀ o now (cfg : Config), cfg.paragonControl = "" →
      buildParagonRequestFromShopify o cfg now = none)
    ∧ (∀ o cfg now b, buildParagonRequestFromShopify o cfg now = some b →
      b.paragonOrder.merchantControl ≠ "") := by
  constructor
  · intro o now cfg h
    unfold buildParagonRequestFromShopify
    simp [h]
  · intro o cfg now b hb
    unfold buildParagonRequestFromShopify at hb
    by_cases hv : (jsTruthy o && jsIsObjectType o) = true
    · rw [if_pos hv] at hb
      by_cases hc : cfg.paragonControl = ""
      · rw [if_pos hc] at hb
        exact absurd hb (by simp)
      · rw [if_neg hc] at hb
        by_cases hcard : isCardOrder o = true
        · rw [if_pos hcard] at hb
          obtain rfl := Option.some.inj hb
          exact hc
        · rw [if_neg hcard] at hb
          exact absurd hb (by simp)
    · rw [if_neg hv] at hb
      exact absurd hb (by simp)

theorem merchantControl_required_witness :
    buildParagonRequestFromShopify oA cfgEmpty 0 = none
    ∧ (buildCore oA cfgEx 0).paragonOrder.merchantControl ≠ "" :=
  ⟨merchantControl_required.1 oA 0 cfgEmpty rfl,
   merchantControl_required.2 oA cfgEx 0 (buildCore oA cfgEx 0) rfl⟩

theorem pad2_length : ∀ m, m < 100 → (pad2 m).length = 2 := by decide

theorem natDigits_ne_nil (n : Nat) : natDigits n ≠ [] := by
  unfold natDigits natDigitsAux
  split <;> simp

theorem toFixed2_below (q : Rat) (h : q.num.natAbs < 10 ^ 21 * q.den) :
    toFixed2 q = toFixed2Whole q ++ "." ++ pad2 (toFixed2Scaled q % 100) := by
  unfold toFixed2
  rw [if_neg (by omega)]

theorem toFixed2_above (q : Rat) (h : 10 ^ 21 * q.den ≤ q.num.natAbs) :
    toFixed2 q = ratToString q := by
  unfold toFixed2
  rw [if_pos h]

theorem ratBodyString_pos (scaled k : Nat) : 1 ≤ (ratBodyString scaled k).length := by
  simp only [ratBodyString]
  split
  · exact List.length_pos.mpr (natDigits_ne_nil _)
  · split
    · rw [String.length_append, String.length_append]
      have hd : ("." : String).length = 1 := rfl
      omega
    · split
      · rw [String.length_append, String.length_append]
        have h0 : ("0." : String).length = 2 := rfl
        omega
      · rw [String.length_append, String.length_append]
        have hS : ∀ c : Prop, ∀ h : Decidable c,
            ((if c then ("e-" : String) else "e+").length) = 2 := by
          intro c h
          split <;> rfl
        rw [hS]
        omega

theorem ratToString_ne_empty (q : Rat) : ratToString q ≠ "" := by
  unfold ratToString
  by_cases h0 : q.num = 0
  · rw [if_pos h0]
    simp
  · rw [if_neg h0]
    intro h
    have hl := congrArg String.length h
    rw [String.length_append] at hl
    have hb := ratBodyString_pos
      (q.num.natAbs * 10 ^ findDecExp q.den 64 0 / q.den) (findDecExp q.den 64 0)
    have hz : ("" : String).length = 0 := rfl
    omega

theorem toFixed2_ne_empty (q : Rat) : toFixed2 q ≠ "" := by
  by_cases h : 10 ^ 21 * q.den ≤ q.num.natAbs
  · rw [toFixed2_above q h]
    exact ratToString_ne_empty q
  · rw [toFixed2_below q (by omega)]
    intro he
    have hl := congrArg String.length he
    rw [String.length_append, String.length_append] at hl
    have hd : ("." : String).length = 1 := rfl
    have hz : ("" : String).length = 0 := rfl
    omega

theorem formatAmount_ne_empty (v : JSValue) : formatAmount v ≠ "" := by
  cases v with
  | num q => exact toFixed2_ne_empty q
  | str s =>
      by_cases h : jsTrim s = ""
      · simp [formatAmount, h]
      · simp [formatAmount, h]
  | undefined => simp [formatAmount]
  | null => simp [formatAmount]
  | bool b => simp [formatAmount]
  | arr xs => simp [formatAmount]
  | obj fs => simp [formatAmount]

/- A card order whose total_price is the double 1e21, the smallest
magnitude at which toFixed abandons fixed-point formatting. -/
def oHugeTotal : JSValue := .obj [
  ("payment_gateway_names", .arr [.str "card"]),
  ("total_price", .num (ratInt 1000000000000000000000))]

/-- Claim C2 as stated is false: a numeric resolved amount is not
always formatted to exactly two decimal places. With total_price the
number 1e21 (an exact double), ECMA toFixed falls back to ToString and
the program produces the amount 1e+21, which has no two-fraction-digit
tail; the build of that concrete card order carries exactly that
amount. -/
theorem amount_two_decimals_cex :
    resolveAmountRaw oHugeTotal = .num (ratInt 1000000000000000000000)
    ∧ formatAmount (.num (ratInt 1000000000000000000000)) = "1e+21"
    ∧ (buildCore oHugeTotal cfgEx 0).paragonOrder.amount = "1e+21"
    ∧ ¬ ∃ pre m, m < 100 ∧ ("1e+21" : String) = pre ++ "." ++ pad2 m := by
  refine ⟨rfl, by decide, by decide, ?_⟩
  rintro ⟨pre, m, hm, h⟩
  have hdot : ('.') ∈ ("1e+21" : String).data := by
    rw [h, String.data_append, String.data_append]
    refine List.mem_append_left _ (List.mem_append_right _ ?_)
    decide
  exact absurd hdot (by decide)

/-- Claim C2, amended: the amount flowing into the built request is the
format step applied to the truthiness chain over total_price,
current_total_price, subtotal_price and the nested shop-money amount;
a numeric resolved value of magnitude below 10^21 is rendered with
exactly two fraction digits (12.5 gives 12.50), while from magnitude
10^21 upward toFixed falls back to the number ToString form (1e21
gives 1e+21); a string with non-blank content is trimmed and kept
verbatim with no numeric re-validation, every other outcome gives
0.00, and the amount is never the empty string. -/
theorem amount_resolution_amended :
    (∀ o cfg now, (buildCore o cfg now).paragonOrder.amount
        = formatAmount (resolveAmountRaw o))
    ∧ (∀ q, formatAmount (.num q) = toFixed2 q)
    ∧ (∀ q : Rat, q.num.natAbs < 10 ^ 21 * q.den →
        toFixed2 q = toFixed2Whole q ++ "." ++ pad2 (toFixed2Scaled q % 100)
        ∧ (pad2 (toFixed2Scaled q % 100)).length = 2)
    ∧ (∀ q : Rat, 10 ^ 21 * q.den ≤ q.num.natAbs → toFixed2 q = ratToString q)
    ∧ (∀ s, jsTrim s ≠ "" → formatAmount (.str s) = jsTrim s)
    ∧ (∀ s, jsTrim s = "" → formatAmount (.str s) = "0.00")
    ∧ formatAmount .undefined = "0.00"
    ∧ formatAmount .null = "0.00"
    ∧ (∀ b, formatAmount (.bool b) = "0.00")
    ∧ (∀ xs, formatAmount (.arr xs) = "0.00")
    ∧ (∀ fs, formatAmount (.obj fs) = "0.00")
    ∧ toFixed2 (12.5 : Rat) = "12.50"
    ∧ formatAmount (.str " 12.50 ") = "12.50"
    ∧ (∀ v, formatAmount v ≠ "") := by
  refine ⟨fun o cfg now => rfl, fun q => rfl, ?_, toFixed2_above, ?_, ?_, rfl, rfl,
    fun b => rfl, fun xs => rfl, fun fs => rfl, ?_, by decide, formatAmount_ne_empty⟩
  · intro q h
    exact ⟨toFixed2_below q h, pad2_length _ (Nat.mod_lt _ (by norm_num))⟩
  · intro s h
    simp [formatAmount, h]
  · intro s h
    simp [formatAmount, h]
  · rw [show (12.5 : Rat) = rat25over2 by
      rw [rat25over2, Rat.mk'_eq_divInt, Rat.divInt_eq_div]; norm_num]
    decide

theorem amount_resolution_amended_witness :
    (toFixed2 (ratInt 3)
      = toFixed2Whole (ratInt 3) ++ "." ++ pad2 (toFixed2Scaled (ratInt 3) % 100))
    ∧ toFixed2 (ratInt 1000000000000000000000)
      = ratToString (ratInt 1000000000000000000000)
    ∧ formatAmount (.str " 12.50 ") = jsTrim " 12.50 "
    ∧ formatAmount (.str "   ") = "0.00" :=
  ⟨(amount_resolution_amended.2.2.1 (ratInt 3) (by decide)).1,
   amount_resolution_amended.2.2.2.1 (ratInt 1000000000000000000000) (by decide),
   amount_resolution_amended.2.2.2.2.1 " 12.50 " (by decide),
   amount_resolution_amended.2.2.2.2.2.1 "   " (by decide)⟩

/-- Claim C10: amount fallback is by truthiness, not presence. When the
first field of the chain is falsy (such as the number 0 or an empty
string) resolution continues with the remaining chain; the order with
total_price 0 and subtotal_price 5.00 resolves to 5.00, and an order
whose every amount field is 0 or empty resolves to 0.00. -/
theorem amount_truthiness_fallback :
    (∀ o, jsTruthy (jsGetField o "total_price") = false →
      resolveAmountRaw o =
        jsOr (jsOr (jsOr (jsGetField o "current_total_price")
                         (jsGetField o "subtotal_price"))
                   (shopMoneyAmount o))
             (.str ""))
    ∧ (buildCore oZeroTotal cfgEx 0).paragonOrder.amount = "5.00"
    ∧ (buildCore oAllEmptyAmount cfgEx 0).paragonOrder.amount = "0.00"
    ∧ formatAmount (resolveAmountRaw oZeroTotal) = "5.00"
    ∧ formatAmount (resolveAmountRaw oAllEmptyAmount) = "0.00" := by
  refine ⟨?_, by decide, by decide, by decide, by decide⟩
  intro o h
  simp [resolveAmountRaw, jsOr, h]

theorem amount_truthiness_fallback_witness :
    resolveAmountRaw oZeroTotal =
      jsOr (jsOr (jsOr (jsGetField oZeroTotal "current_total_price")
                       (jsGetField oZeroTotal "subtotal_price"))
                 (shopMoneyAmount oZeroTotal))
           (.str "") :=
  amount_truthiness_fallback.1 oZeroTotal (by decide)

theorem utf8Encode_append (a b : String) :
    utf8Encode (a ++ b) = utf8Encode a ++ utf8Encode b := by
  unfold utf8Encode
  rw [String.data_append, List.map_append, List.flatten_append]

def isLowerHexChar (c : Char) : Bool :=
  (48 ≤ c.toNat && c.toNat ≤ 57) || (97 ≤ c.toNat && c.toNat ≤ 102)

def isLowerHexString (s : String) : Bool := s.data.all isLowerHexChar

theorem hexChar_lower : ∀ n, n < 16 → isLowerHexChar (hexChar n) = true := by decide

theorem bytesToHexLower_lowercase (bs : List Nat) :
    isLowerHexString (bytesToHexLower bs) = true := by
  induction bs with
  | nil => rfl
  | cons b rest ih =>
      have h1 := hexChar_lower (b / 16 % 16) (Nat.mod_lt _ (by norm_num))
      have h2 := hexChar_lower (b % 16) (Nat.mod_lt _ (by norm_num))
      unfold isLowerHexString bytesToHexLower at ih ⊢
      simp only [List.map_cons, List.flatten_cons, List.all_append, byteHex,
        List.all_cons, List.all_nil, h1, h2, Bool.and_true, Bool.true_and] at ih ⊢
      exact ih

set_option maxRecDepth 1000000 in
/-- Claim C5: the authorization token produced by the signer is the
string Bearer followed by the lowercase hexadecimal rendering of the
HMAC-SHA256 of the serialized body concatenated with the request URL,
keyed by the secret. The first conjunct ties the built authHeader to
the signing routine; the second expands the routine into the HMAC of
the UTF-8 bytes of body then URL under the UTF-8 bytes of the key; the
third shows the rendering is always lowercase hex; the last two pin the
SHA-256 and HMAC implementations to published test vectors (FIPS 180-2
and RFC 4231 case 2). -/
theorem signer_bearer_hmac :
    (∀ o cfg now, (buildCore o cfg now).authHeader
        = signRequest (buildCore o cfg now).bodyString (buildCore o cfg now).requestUrl
            cfg.paragonControl)
    ∧ (∀ body url secret, signRequest body url secret
        = "Bearer " ++ bytesToHexLower (hmacSha256Bytes (utf8Encode secret)
            (utf8Encode body ++ utf8Encode url)))
    ∧ (∀ bs, isLowerHexString (bytesToHexLower bs) = true)
    ∧ bytesToHexLower (hmacSha256Bytes (utf8Encode "Jefe")
        (utf8Encode "what do ya want for nothing?"))
        = "5bdcc146bf60754e6a042426089575c75a003f089d2739839dec58b964ec3843"
    ∧ bytesToHexLower (sha256Bytes (utf8Encode "abc"))
        = "ba7816bf8f01cfea414140de5dae2223b00361a396177a9cb410ff61f20015ad" := by
  refine ⟨fun o cfg now => rfl, ?_, bytesToHexLower_lowercase, by decide, by decide⟩
  intro body url secret
  unfold signRequest hmacSha256HexLower
  rw [utf8Encode_append]

theorem jsOr_of_truthy {a : JSValue} (b : JSValue) (h : jsTruthy a = true) :
    jsOr a b = a := by
  unfold jsOr
  rw [h]
  rfl

/-- Claim C1: for every order for which the build succeeds, the string
the signer consumed is byte-identical to the JSON text handed to the
outbound POST. The transmitted body is the serialization axios applies
to the paragonOrder object, and it equals the bodyString that entered
the HMAC, which is itself the single JSON.stringify of that object. -/
theorem signedBody_eq_transmitted (o : JSValue) (cfg : Config) (now : Nat)
    (gw : GatewayResult) (em : EmailResult)
    (hCard : isCardOrder o = true) (hCtl : cfg.paragonControl ≠ "") :
    (handleShopifyOrder o cfg now gw em).transmittedBody
      = some ((buildCore o cfg now).bodyString)
    ∧ (buildCore o cfg now).bodyString
      = serializeParagonOrder (buildCore o cfg now).paragonOrder := by
  obtain ⟨h1, h2⟩ := isCardOrder_shape o hCard
  have hord : jsOr o (.obj []) = o := jsOr_of_truthy _ h1
  have hb := build_eq_some o cfg now h1 h2 hCtl hCard
  refine ⟨?_, rfl⟩
  unfold handleShopifyOrder
  simp only [hord, hb]
  cases gw with
  | failure msg => rfl
  | success data =>
      dsimp only
      split
      · cases em <;> rfl
      · rfl

theorem signedBody_eq_transmitted_witness :
    (handleShopifyOrder oA cfgEx 0 (.success (.obj [])) .sent).transmittedBody
      = some ((buildCore oA cfgEx 0).bodyString) :=
  (signedBody_eq_transmitted oA cfgEx 0 (.success (.obj [])) .sent
    (by decide) (by decide)).1

/-- Claim C8: whenever the gateway submission fails, the orchestrator
responds with HTTP 200 and a body with ok false, the error tag
paragon-failed and the failure message, and no email send is attempted
on that path. -/
theorem paragon_failure_ack (o : JSValue) (cfg : Config) (now : Nat) (msg : String)
    (em : EmailResult) (hCard : isCardOrder o = true) (hCtl : cfg.paragonControl ≠ "") :
    (handleShopifyOrder o cfg now (.failure msg) em).status = 200
    ∧ (handleShopifyOrder o cfg now (.failure msg) em).body
        = .obj [("ok", .bool false), ("error", .str "paragon-failed"),
                ("message", .str msg)]
    ∧ (handleShopifyOrder o cfg now (.failure msg) em).emailAttempted = false := by
  obtain ⟨h1, h2⟩ := isCardOrder_shape o hCard
  have hord : jsOr o (.obj []) = o := jsOr_of_truthy _ h1
  have hb := build_eq_some o cfg now h1 h2 hCtl hCard
  unfold handleShopifyOrder
  simp only [hord, hb]
  exact ⟨trivial, trivial, trivial⟩

theorem paragon_failure_ack_witness :
    (handleShopifyOrder oA cfgEx 0 (.failure "timeout of 15000ms exceeded") .sent).status = 200
    ∧ (handleShopifyOrder oA cfgEx 0 (.failure "timeout of 15000ms exceeded") .sent).body
        = .obj [("ok", .bool false), ("error", .str "paragon-failed"),
                ("message", .str "timeout of 15000ms exceeded")]
    ∧ (handleShopifyOrder oA cfgEx 0
        (.failure "timeout of 15000ms exceeded") .sent).emailAttempted = false :=
  paragon_failure_ack oA cfgEx 0 "timeout of 15000ms exceeded" .sent (by decide) (by decide)

/-- Claim C9 as stated is false: on a skipped order the acknowledgment
body carries skipped as the string not-card-or-bad-payload, not the
boolean true the claim asserts. The PayPal order of the claim is the
explicit input. -/
theorem skip_ack_body_cex :
    (handleShopifyOrder oPayPal cfgEx 0 (.success (.obj [])) .sent).body
      = .obj [("ok", .bool true), ("skipped", .str "not-card-or-bad-payload")]
    ∧ (handleShopifyOrder oPayPal cfgEx 0 (.success (.obj [])) .sent).body
      ≠ .obj [("ok", .bool true), ("skipped", .bool true)] := by
  constructor
  · rfl
  · intro h
    have h2 : JSValue.obj [("ok", .bool true), ("skipped", .str "not-card-or-bad-payload")]
        = .obj [("ok", .bool true), ("skipped", .bool true)] := h
    simp at h2

/-- Claim C9, amended: for every order whose transform yields null the
orchestrator makes no outbound gateway call and acknowledges with HTTP
200 and body with ok true and skipped set to the truthy string
not-card-or-bad-payload (the code never sends boolean true there). -/
theorem skip_ack_amended (reqBody : JSValue) (cfg : Config) (now : Nat)
    (gw : GatewayResult) (em : EmailResult)
    (h : buildParagonRequestFromShopify (jsOr reqBody (.obj [])) cfg now = none) :
    handleShopifyOrder reqBody cfg now gw em =
      { status := 200
        body := .obj [("ok", .bool true), ("skipped", .str "not-card-or-bad-payload")]
        gatewayCalled := false
        transmittedBody := none
        emailAttempted := false } := by
  unfold handleShopifyOrder
  simp only [h]

theorem skip_ack_amended_witness :
    handleShopifyOrder oPayPal cfgEx 0 (.success (.obj [])) .sent =
      { status := 200
        body := .obj [("ok", .bool true), ("skipped", .str "not-card-or-bad-payload")]
        gatewayCalled := false
        transmittedBody := none
        emailAttempted := false } :=
  skip_ack_amended oPayPal cfgEx 0 (.success (.obj [])) .sent rfl

/-- Claim C6 as stated is false: the transformer is not independent of
the current time. A card order with neither a name nor an order number
reaches the Date.now fallback, so two runs at epoch millis 0 and 1
yield different clientOrderId values and therefore different builds. -/
theorem transform_time_dependent_cex :
    buildParagonRequestFromShopify oStrCard cfgEx 0
      ≠ buildParagonRequestFromShopify oStrCard cfgEx 1 := by
  intro h
  have h0 : (buildParagonRequestFromShopify oStrCard cfgEx 0).map
      (fun b => b.paragonOrder.clientOrderId) = some "bongs-no-order-0" := rfl
  have h1 : (buildParagonRequestFromShopify oStrCard cfgEx 1).map
      (fun b => b.paragonOrder.clientOrderId) = some "bongs-no-order-1" := rfl
  rw [h, h1] at h0
  exact absurd (Option.some.inj h0) (by decide)

/-- Claim C6, amended: the transformer is a pure function of the order
plus static configuration whenever the order number resolves from the
order itself (a truthy name or a loosely non-null order_number); only
when both are missing does the synthesized fallback embed the current
epoch millis, making the output time-dependent. -/
theorem transform_pure_given_order_number (o : JSValue) (cfg : Config)
    (now now' : Nat) (h : jsTruthy (resolveOrderNumberRaw o) = true) :
    buildParagonRequestFromShopify o cfg now
      = buildParagonRequestFromShopify o cfg now' := by
  have hnum : resolveOrderNumber o now = resolveOrderNumber o now' := by
    simp [resolveOrderNumber, h]
  unfold buildParagonRequestFromShopify buildCore
  rw [hnum]

theorem transform_pure_given_order_number_witness :
    jsTruthy (resolveOrderNumberRaw oA) = true
    ∧ buildParagonRequestFromShopify oA cfgEx 0
        = buildParagonRequestFromShopify oA cfgEx 12345 :=
  ⟨by decide, transform_pure_given_order_number oA cfgEx 0 12345 (by decide)⟩
